import Mathlib

/-!
# Verification of the MediConnect workflow core

A shallow embedding of the prescription-lifecycle, inventory-ledger and
conversation-store logic of the repository (`src/server/routes.ts`,
`src/server/storage.ts`, `src/server/services/openrouter.ts`,
`src/shared/schema.ts`), together with theorems settling the spec claims.

Timestamps and dates are modelled as natural numbers (milliseconds / days
since an epoch); ids, roles and statuses are strings, as in the source,
where statuses and roles are plain `varchar` string tags.
-/

namespace MediConnect

/-- One medication entry of a prescription (`medications` jsonb array,
`src/shared/schema.ts:111`). -/
structure Medication where
  name : String
  dosage : String
  frequency : String
  instructions : Option String := none
deriving Repr, DecidableEq

/-- A row of the `doctors` table (`src/shared/schema.ts:59`), the fields the
workflow core reads. -/
structure Doctor where
  id : String
  userId : String
  licenseNumber : String := ""
  specialization : String := ""
deriving Repr, DecidableEq

/-- A row of the `pharmacies` table (`src/shared/schema.ts:75`), the fields the
workflow core reads. -/
structure Pharmacy where
  id : String
  userId : String
  pharmacyName : String := ""
  licenseNumber : String := ""
  address : String := ""
deriving Repr, DecidableEq

/-- A row of the `prescriptions` table (`src/shared/schema.ts:105`).
`status` is a plain string tag, as the `varchar` column is. -/
structure Prescription where
  id : String
  appointmentId : Option String
  patientId : String
  doctorId : String
  pharmacyId : Option String
  medications : List Medication
  instructions : Option String
  status : String
  validUntil : Option Nat
  createdAt : Nat
  updatedAt : Nat
deriving Repr, DecidableEq

/-- A row of the `inventory` table (`src/shared/schema.ts:120`).
`currentStock` and `minStockLevel` are integer columns with no sign
constraint, so they are `Int`. -/
structure InventoryItem where
  id : String
  pharmacyId : String
  medicineName : String
  genericName : Option String := none
  manufacturer : Option String := none
  dosage : Option String := none
  form : Option String := none
  currentStock : Int
  minStockLevel : Int
  price : Option String := none
  expiryDate : Option Nat
  batchNumber : Option String := none
  createdAt : Nat := 0
  updatedAt : Nat := 0
deriving Repr, DecidableEq

/-- One entry of a conversation transcript (`messages` jsonb array,
`src/shared/schema.ts:142`; entries are built in `src/server/routes.ts:395`). -/
structure ChatMessage where
  role : String
  content : String
  timestamp : Nat
deriving Repr, DecidableEq

/-- A row of the `ai_conversations` table (`src/shared/schema.ts:138`). -/
structure AIConversation where
  id : String
  userId : String
  userRole : String
  messages : List ChatMessage
  context : Option String
  createdAt : Nat
  updatedAt : Nat
deriving Repr, DecidableEq

/-- The persisted state the workflow core reads and writes: the tables of
`src/shared/schema.ts` that the claims touch. -/
structure Storage where
  doctors : List Doctor
  pharmacies : List Pharmacy
  prescriptions : List Prescription
  inventory : List InventoryItem
  aiConversations : List AIConversation
deriving Repr, DecidableEq

/-- Outcome of an HTTP route handler: a JSON success payload or an error
status with a human-readable message. -/
inductive ApiResult (α : Type) where
  | ok (value : α)
  | error (status : Nat) (message : String)
deriving Repr, DecidableEq

/-! ## Sorting relations used by the storage queries

`orderBy(desc(prescriptions.createdAt))`, `orderBy(asc(inventory.currentStock))`
and `orderBy(asc(inventory.expiryDate))` / `orderBy(desc(aiConversations.updatedAt))`
are modelled with `List.insertionSort` over total transitive relations. -/

/-- Newest-first order on prescriptions: `desc(prescriptions.createdAt)`. -/
def Prescription.newestFirst (p q : Prescription) : Prop :=
  q.createdAt ≤ p.createdAt

instance : DecidableRel Prescription.newestFirst :=
  fun p q => inferInstanceAs (Decidable (q.createdAt ≤ p.createdAt))

instance : IsTotal Prescription Prescription.newestFirst :=
  ⟨fun p q => (Nat.le_total q.createdAt p.createdAt).imp id id⟩

instance : IsTrans Prescription Prescription.newestFirst :=
  ⟨fun _ _ _ h h' => Nat.le_trans h' h⟩

/-- Ascending stock order on inventory items: `asc(inventory.currentStock)`. -/
def InventoryItem.stockAsc (a b : InventoryItem) : Prop :=
  a.currentStock ≤ b.currentStock

instance : DecidableRel InventoryItem.stockAsc :=
  fun a b => inferInstanceAs (Decidable (a.currentStock ≤ b.currentStock))

instance : IsTotal InventoryItem InventoryItem.stockAsc :=
  ⟨fun a b => Int.le_total a.currentStock b.currentStock⟩

instance : IsTrans InventoryItem InventoryItem.stockAsc :=
  ⟨fun _ _ _ h h' => Int.le_trans h h'⟩

/-- Ascending expiry order on inventory items: `asc(inventory.expiryDate)`
(every row the expiring query returns has a non-null `expiryDate`). -/
def InventoryItem.expiryAsc (a b : InventoryItem) : Prop :=
  a.expiryDate.getD 0 ≤ b.expiryDate.getD 0

instance : DecidableRel InventoryItem.expiryAsc :=
  fun a b => inferInstanceAs (Decidable (a.expiryDate.getD 0 ≤ b.expiryDate.getD 0))

instance : IsTotal InventoryItem InventoryItem.expiryAsc :=
  ⟨fun a b => Nat.le_total (a.expiryDate.getD 0) (b.expiryDate.getD 0)⟩

instance : IsTrans InventoryItem InventoryItem.expiryAsc :=
  ⟨fun _ _ _ h h' => Nat.le_trans h h'⟩

/-- Most-recently-updated-first order on conversations:
`desc(aiConversations.updatedAt)`. -/
def AIConversation.recentFirst (a b : AIConversation) : Prop :=
  b.updatedAt ≤ a.updatedAt

instance : DecidableRel AIConversation.recentFirst :=
  fun a b => inferInstanceAs (Decidable (b.updatedAt ≤ a.updatedAt))

instance : IsTotal AIConversation AIConversation.recentFirst :=
  ⟨fun a b => (Nat.le_total b.updatedAt a.updatedAt).imp id id⟩

instance : IsTrans AIConversation AIConversation.recentFirst :=
  ⟨fun _ _ _ h h' => Nat.le_trans h' h⟩

/-! ## Storage operations (`src/server/storage.ts`) -/

/-- Storage operation `getDoctorByUserId` (`src/server/storage.ts:162`): first row of
`doctors` whose `userId` matches. -/
def getDoctorByUserId (s : Storage) (userId : String) : Option Doctor :=
  (s.doctors.filter (fun d => d.userId = userId)).head?

/-- Storage operation `getPharmacyByUserId` (`src/server/storage.ts:194`): first row of
`pharmacies` whose `userId` matches. -/
def getPharmacyByUserId (s : Storage) (userId : String) : Option Pharmacy :=
  (s.pharmacies.filter (fun p => p.userId = userId)).head?

/-- Storage operation `getPrescription` (`src/server/storage.ts:260`): first row of
`prescriptions` with the given id. -/
def getPrescription (s : Storage) (id : String) : Option Prescription :=
  (s.prescriptions.filter (fun p => p.id = id)).head?

/-- Storage operation `createPrescription` (`src/server/storage.ts:252`): insert a row. -/
def createPrescription (s : Storage) (p : Prescription) : Storage :=
  { s with prescriptions := s.prescriptions ++ [p] }

/-- Storage operation `getPharmacyPrescriptions` (`src/server/storage.ts:281`): rows where
`pharmacyId` equals the argument and `status` is `pending` or `approved`,
ordered by `createdAt` descending. A row with null `pharmacyId` never
matches the SQL equality. -/
def getPharmacyPrescriptions (s : Storage) (pharmacyId : String) : List Prescription :=
  ((s.prescriptions.filter (fun p =>
      p.pharmacyId = some pharmacyId ∧
      (p.status = "pending" ∨ p.status = "approved"))).insertionSort
    Prescription.newestFirst)

/-- The per-row write of `updatePrescription`: set `status` and
`updatedAt` when the id matches, leave the row unchanged otherwise. -/
def setPrescriptionStatus (id newStatus : String) (now : Nat) (p : Prescription) :
    Prescription :=
  if p.id = id then { p with status := newStatus, updatedAt := now } else p

/-- Storage operation `updatePrescription` (`src/server/storage.ts:292`) as used by the
status route: set the given fields and `updatedAt` on every row whose id
matches, and return the first updated row (`returning()` then `[prescription]`). -/
def updatePrescription (s : Storage) (id : String) (newStatus : String) (now : Nat) :
    Storage × Option Prescription :=
  let updated := s.prescriptions.map (setPrescriptionStatus id newStatus now)
  ({ s with prescriptions := updated },
   (updated.filter (fun p => p.id = id)).head?)

/-- Storage operation `createInventoryItem` (`src/server/storage.ts:302`): insert a row. -/
def createInventoryItem (s : Storage) (item : InventoryItem) : Storage :=
  { s with inventory := s.inventory ++ [item] }

/-- Storage operation `getLowStockItems` (`src/server/storage.ts:327`): rows of the owner
where `currentStock < minStockLevel` (strict), ordered by `currentStock`
ascending. -/
def getLowStockItems (s : Storage) (pharmacyId : String) : List InventoryItem :=
  ((s.inventory.filter (fun i =>
      i.pharmacyId = pharmacyId ∧ i.currentStock < i.minStockLevel)).insertionSort
    InventoryItem.stockAsc)

/-- The SQL comparison `inventory.expiryDate < cutoff`: false on a null
`expiryDate` (tri-valued SQL comparison), strict `<` otherwise. -/
def expiryBefore (e : Option Nat) (cutoff : Nat) : Prop :=
  match e with
  | some d => d < cutoff
  | none => False

instance (e : Option Nat) (cutoff : Nat) : Decidable (expiryBefore e cutoff) := by
  unfold expiryBefore
  cases e with
  | none => exact inferInstanceAs (Decidable False)
  | some d => exact inferInstanceAs (Decidable (d < cutoff))

/-- Storage operation `getExpiringItems` (`src/server/storage.ts:338`): rows of the owner
whose `expiryDate` is strictly before `today + days`, ordered by
`expiryDate` ascending. The cutoff (`new Date()` advanced by `days` days)
is modelled as `today + days`. -/
def getExpiringItems (s : Storage) (pharmacyId : String) (days : Nat) (today : Nat) :
    List InventoryItem :=
  ((s.inventory.filter (fun i =>
      i.pharmacyId = pharmacyId ∧ expiryBefore i.expiryDate (today + days))).insertionSort
    InventoryItem.expiryAsc)

/-- Storage operation `createAIConversation` (`src/server/storage.ts:353`): insert a row. -/
def createAIConversation (s : Storage) (c : AIConversation) : Storage :=
  { s with aiConversations := s.aiConversations ++ [c] }

/-- Storage operation `getUserAIConversations` (`src/server/storage.ts:361`): the user's
rows ordered by `updatedAt` descending, limited to 10. -/
def getUserAIConversations (s : Storage) (userId : String) : List AIConversation :=
  (((s.aiConversations.filter (fun c => c.userId = userId)).insertionSort
      AIConversation.recentFirst).take 10)

/-- The per-row write of `updateAIConversation`: set `messages`, `context`
and `updatedAt` when the id matches, leave the row unchanged otherwise. -/
def setConversationFields (id : String) (messages : List ChatMessage)
    (context : Option String) (now : Nat) (c : AIConversation) : AIConversation :=
  if c.id = id then
    { c with messages := messages, context := context, updatedAt := now }
  else c

/-- Storage operation `updateAIConversation` (`src/server/storage.ts:370`): set `messages`,
`context` and `updatedAt` on every row whose id matches. -/
def updateAIConversation (s : Storage) (id : String) (messages : List ChatMessage)
    (context : Option String) (now : Nat) : Storage :=
  { s with aiConversations :=
      s.aiConversations.map (setConversationFields id messages context now) }

/-! ## Route handlers (`src/server/routes.ts`)

Each handler takes the session identity resolved by `requireAuth`
(`userId`, `userRole`), the parsed request body, and — where the source
consults the clock or the database generates an id — an explicit `now`
timestamp and fresh `newId`. It returns the new storage state and the
HTTP outcome. -/

/-- The JSON body accepted by `POST /api/prescriptions`. The handler reads
only the fields below except `status`, which a caller may supply but the
handler never reads (`src/server/routes.ts:272` builds `prescriptionData`
from named fields with `status: 'pending'` hard-coded). -/
structure PrescriptionBody where
  patientId : String
  appointmentId : Option String := none
  pharmacyId : Option String := none
  medications : List Medication
  instructions : Option String := none
  validUntil : Option Nat := none
  status : Option String := none
deriving Repr, DecidableEq

/-- Route `POST /api/prescriptions` (`src/server/routes.ts:261`): doctor-only;
404 when the caller has no doctor profile; otherwise inserts a
prescription with `status` fixed to `pending`. -/
def createPrescriptionRoute (s : Storage) (userId userRole : String)
    (body : PrescriptionBody) (newId : String) (now : Nat) :
    Storage × ApiResult Prescription :=
  if userRole ≠ "doctor" then
    (s, .error 403 "Only doctors can create prescriptions")
  else
    match getDoctorByUserId s userId with
    | none => (s, .error 404 "Doctor profile not found")
    | some doctor =>
      let p : Prescription :=
        { id := newId
          appointmentId := body.appointmentId
          patientId := body.patientId
          doctorId := doctor.id
          pharmacyId := body.pharmacyId
          medications := body.medications
          instructions := body.instructions
          status := "pending"
          validUntil := body.validUntil
          createdAt := now
          updatedAt := now }
      (createPrescription s p, .ok p)

/-- Route `PUT /api/prescriptions/:id/status` (`src/server/routes.ts:327`):
pharmacy-only; otherwise writes the caller-supplied `status` through
`updatePrescription` with no ownership check and no check against the
current status. -/
def updatePrescriptionStatusRoute (s : Storage) (userId userRole : String)
    (id : String) (status : String) (now : Nat) :
    Storage × ApiResult (Option Prescription) :=
  if userRole ≠ "pharmacy" then
    (s, .error 403 "Only pharmacies can update prescription status")
  else
    let r := updatePrescription s id status now
    (r.1, .ok r.2)

/-- The JSON body accepted by `POST /api/inventory`. The handler spreads
the whole body and then overwrites `pharmacyId`
(`src/server/routes.ts:355`: `{ ...req.body, pharmacyId: pharmacy.id }`),
so a caller-supplied `pharmacyId` is always discarded. -/
structure InventoryBody where
  pharmacyId : Option String := none
  medicineName : String
  genericName : Option String := none
  manufacturer : Option String := none
  dosage : Option String := none
  form : Option String := none
  currentStock : Int
  minStockLevel : Int
  price : Option String := none
  expiryDate : Option Nat := none
  batchNumber : Option String := none
deriving Repr, DecidableEq

/-- Route `POST /api/inventory` (`src/server/routes.ts:344`): pharmacy-only;
404 when the caller has no pharmacy profile; otherwise inserts the body
as an inventory item with `pharmacyId` forced to the caller's profile id. -/
def createInventoryItemRoute (s : Storage) (userId userRole : String)
    (body : InventoryBody) (newId : String) (now : Nat) :
    Storage × ApiResult InventoryItem :=
  if userRole ≠ "pharmacy" then
    (s, .error 403 "Only pharmacies can manage inventory")
  else
    match getPharmacyByUserId s userId with
    | none => (s, .error 404 "Pharmacy profile not found")
    | some pharmacy =>
      let item : InventoryItem :=
        { id := newId
          pharmacyId := pharmacy.id
          medicineName := body.medicineName
          genericName := body.genericName
          manufacturer := body.manufacturer
          dosage := body.dosage
          form := body.form
          currentStock := body.currentStock
          minStockLevel := body.minStockLevel
          price := body.price
          expiryDate := body.expiryDate
          batchNumber := body.batchNumber
          createdAt := now
          updatedAt := now }
      (createInventoryItem s item, .ok item)

/-! ## The text-generation collaborator (`src/server/services/openrouter.ts`) -/

/-- The role-specific static fallback strings of
`src/server/services/openrouter.ts:94`. -/
def fallbackResponse (userRole : String) : String :=
  if userRole = "patient" then
    "I'm experiencing some technical difficulties right now. For immediate health concerns, please contact your healthcare provider or emergency services if urgent."
  else if userRole = "doctor" then
    "AI assistant is temporarily unavailable. Please refer to your clinical guidelines and professional judgment for patient care decisions."
  else if userRole = "pharmacy" then
    "AI assistant is currently offline. Please refer to your pharmaceutical databases and professional resources for medication information."
  else
    "I'm sorry, but I'm experiencing technical difficulties. Please try again later or contact support if this persists."

/-- Service method `getChatResponse` (`src/server/services/openrouter.ts:41`). The
external call is modelled by its observable outcome `gen`: `some text`
when the upstream replies with a usable first choice, `none` when the
fetch throws, the response is not OK, or `choices` is missing or empty —
every failure is caught and replaced by the role-specific fallback. -/
def getChatResponse (gen : Option String) (userRole : String) : String :=
  match gen with
  | some text => text
  | none => fallbackResponse userRole

/-- Route `POST /api/ai/chat` (`src/server/routes.ts:369`). Looks up the user's
most-recently-updated conversation; creates an empty one when none
exists (re-fetching it, as the source's `conversations[0] || ...` does);
appends a `user` entry then an `assistant` entry and persists with the
caller's `context`. The unreachable re-fetch miss maps to the handler's
catch-all 500. -/
def aiChatRoute (s : Storage) (userId userRole : String)
    (message : String) (context : Option String) (gen : Option String)
    (newId : String) (now : Nat) :
    Storage × ApiResult String :=
  let conversations := getUserAIConversations s userId
  let aiResponse := getChatResponse gen userRole
  match conversations.head? with
  | some c0 =>
    let updatedMessages := c0.messages ++
      [⟨"user", message, now⟩, ⟨"assistant", aiResponse, now⟩]
    (updateAIConversation s c0.id updatedMessages context now, .ok aiResponse)
  | none =>
    let s1 := createAIConversation s
      { id := newId, userId := userId, userRole := userRole,
        messages := [], context := none, createdAt := now, updatedAt := now }
    match (getUserAIConversations s1 userId).head? with
    | some c =>
      let updatedMessages := c.messages ++
        [⟨"user", message, now⟩, ⟨"assistant", aiResponse, now⟩]
      (updateAIConversation s1 newId updatedMessages context now, .ok aiResponse)
    | none => (s1, .error 500 "AI service temporarily unavailable")

/-! ## The documented lifecycle order -/

/-- The immediate-successor relation of the documented prescription
lifecycle `pending -> approved -> dispensed -> completed` (spec section 4.1),
used to state the transition claim. -/
def statusSuccessor : String → Option String
  | "pending" => some "approved"
  | "approved" => some "dispensed"
  | "dispensed" => some "completed"
  | _ => none

/-! ## Concrete fixtures

Small concrete records used by the closed witness and counterexample
theorems. -/

/-- A well-formed medication entry. -/
def sampleMed : Medication :=
  { name := "Amoxicillin", dosage := "500mg", frequency := "twice_daily" }

/-- A doctor profile for user `u-doc`. -/
def doc1 : Doctor := { id := "doc1", userId := "u-doc" }

/-- A pharmacy profile for user `u-ph1`. -/
def ph1 : Pharmacy := { id := "ph1", userId := "u-ph1" }

/-- A second pharmacy profile for user `u-ph2`. -/
def ph2 : Pharmacy := { id := "ph2", userId := "u-ph2" }

/-- A pending prescription assigned to pharmacy `ph1`. -/
def rx1 : Prescription :=
  { id := "rx1", appointmentId := none, patientId := "pat1", doctorId := "doc1",
    pharmacyId := some "ph1", medications := [sampleMed], instructions := none,
    status := "pending", validUntil := none, createdAt := 5, updatedAt := 5 }

/-- An inventory item of `ph1` below its reorder threshold. -/
def lowItem : InventoryItem :=
  { id := "inv1", pharmacyId := "ph1", medicineName := "Paracetamol",
    currentStock := 5, minStockLevel := 10, expiryDate := some 100 }

/-- An inventory item of `ph1` exactly at its reorder threshold. -/
def boundaryItem : InventoryItem :=
  { id := "inv2", pharmacyId := "ph1", medicineName := "Aspirin",
    currentStock := 10, minStockLevel := 10, expiryDate := some 400 }

/-- An existing conversation of user `u1` with one prior turn. -/
def conv1 : AIConversation :=
  { id := "conv1", userId := "u1", userRole := "patient",
    messages := [⟨"user", "hi", 1⟩, ⟨"assistant", "hello", 1⟩],
    context := none, createdAt := 1, updatedAt := 1 }

/-- A concrete storage state containing the fixtures above. -/
def baseState : Storage :=
  { doctors := [doc1], pharmacies := [ph1, ph2], prescriptions := [rx1],
    inventory := [lowItem, boundaryItem], aiConversations := [conv1] }

/-! ## Claim C2: create-prescription -/

/-- C2: for every caller holding the doctor role with an existing doctor
profile, and for every request body — including one supplying a `status`
field — create-prescription returns a prescription whose status is
`pending`; a non-doctor caller gets 403 and a doctor without a profile
gets 404, with no prescription created in either failure case. -/
theorem create_prescription_spec (s : Storage) (userId userRole : String)
    (body : PrescriptionBody) (newId : String) (now : Nat) :
    (userRole ≠ "doctor" →
      createPrescriptionRoute s userId userRole body newId now =
        (s, .error 403 "Only doctors can create prescriptions")) ∧
    (userRole = "doctor" → getDoctorByUserId s userId = none →
      createPrescriptionRoute s userId userRole body newId now =
        (s, .error 404 "Doctor profile not found")) ∧
    (∀ d, userRole = "doctor" → getDoctorByUserId s userId = some d →
      ∃ p, createPrescriptionRoute s userId userRole body newId now =
          ({ s with prescriptions := s.prescriptions ++ [p] }, .ok p) ∧
        p.status = "pending" ∧ p.doctorId = d.id ∧
        p.medications = body.medications) := by
  refine ⟨fun h => ?_, fun h hd => ?_, fun d h hd => ?_⟩
  · simp [createPrescriptionRoute, h]
  · subst h; simp [createPrescriptionRoute, hd]
  · subst h
    simp only [createPrescriptionRoute, ne_eq, not_true_eq_false, if_false, hd,
      createPrescription]
    exact ⟨_, rfl, rfl, rfl, rfl⟩

/-- Witness for C2: a concrete doctor whose request body smuggles
`status := dispensed` still obtains a `pending` prescription. -/
theorem create_prescription_spec_witness :
    ∃ p, createPrescriptionRoute baseState "u-doc" "doctor"
        { patientId := "pat1", medications := [sampleMed], status := some "dispensed" }
        "rx2" 10 =
        ({ baseState with prescriptions := baseState.prescriptions ++ [p] }, .ok p) ∧
      p.status = "pending" ∧ p.doctorId = doc1.id ∧
      p.medications = [sampleMed] :=
  (create_prescription_spec baseState "u-doc" "doctor"
    { patientId := "pat1", medications := [sampleMed], status := some "dispensed" }
    "rx2" 10).2.2 doc1 rfl (by decide)

/-! ## Claim C10: inventory ownership -/

/-- C10: every inventory item created through the inventory route has its
`pharmacyId` set to the authenticated caller's pharmacy profile id,
regardless of any `pharmacyId` supplied in the body (the body is
quantified, so any caller-supplied owner is overridden). -/
theorem inventory_owner_forced (s : Storage) (userId : String)
    (body : InventoryBody) (newId : String) (now : Nat) (ph : Pharmacy)
    (hph : getPharmacyByUserId s userId = some ph) :
    ∃ item, createInventoryItemRoute s userId "pharmacy" body newId now =
        ({ s with inventory := s.inventory ++ [item] }, .ok item) ∧
      item.pharmacyId = ph.id := by
  simp only [createInventoryItemRoute, ne_eq, not_true_eq_false, if_false, hph,
    createInventoryItem]
  exact ⟨_, rfl, rfl⟩

/-- Witness for C10: a concrete body claiming to belong to `ph2` is stored
under the caller's own pharmacy `ph1`. -/
theorem inventory_owner_forced_witness :
    ∃ item, createInventoryItemRoute baseState "u-ph1" "pharmacy"
        { pharmacyId := some "ph2", medicineName := "Ibuprofen",
          currentStock := 3, minStockLevel := 8 } "inv3" 12 =
        ({ baseState with inventory := baseState.inventory ++ [item] }, .ok item) ∧
      item.pharmacyId = ph1.id :=
  inventory_owner_forced baseState "u-ph1"
    { pharmacyId := some "ph2", medicineName := "Ibuprofen",
      currentStock := 3, minStockLevel := 8 } "inv3" 12 ph1 (by decide)

/-! ## Claim C3: the dispenser's actionable queue -/

/-- C3: the pharmacy prescription listing returns exactly the
prescriptions whose `pharmacyId` equals the given id and whose status is
`pending` or `approved` — so never a `dispensed` or `completed` one, and
never one of a different pharmacy or of no pharmacy — ordered
newest-first by creation time. -/
theorem pharmacy_queue_spec (s : Storage) (pid : String) :
    (∀ p, p ∈ getPharmacyPrescriptions s pid ↔
      (p ∈ s.prescriptions ∧ p.pharmacyId = some pid ∧
        (p.status = "pending" ∨ p.status = "approved"))) ∧
    List.Sorted Prescription.newestFirst (getPharmacyPrescriptions s pid) := by
  constructor
  · intro p
    simp [getPharmacyPrescriptions, List.mem_filter, and_assoc]
  · exact List.sorted_insertionSort Prescription.newestFirst _

/-- Witness for C3: the pending prescription of `ph1` is in its queue, and
the same prescription moved to `dispensed` would not be. -/
theorem pharmacy_queue_spec_witness :
    rx1 ∈ getPharmacyPrescriptions baseState "ph1" ∧
    { rx1 with status := "dispensed" } ∉
      getPharmacyPrescriptions
        { baseState with prescriptions := [{ rx1 with status := "dispensed" }] } "ph1" :=
  ⟨((pharmacy_queue_spec baseState "ph1").1 rx1).mpr (by decide),
   fun h => by
    have := ((pharmacy_queue_spec
      { baseState with prescriptions := [{ rx1 with status := "dispensed" }] }
      "ph1").1 _).mp h
    revert this
    decide⟩

/-! ## Claim C4: the low-stock threshold query -/

/-- C4: the low-stock query returns an item of the owner iff
`currentStock < minStockLevel` strictly — an item exactly at its minimum
is not returned — ordered ascending by `currentStock`. -/
theorem low_stock_spec (s : Storage) (pid : String) :
    (∀ i, i ∈ getLowStockItems s pid ↔
      (i ∈ s.inventory ∧ i.pharmacyId = pid ∧
        i.currentStock < i.minStockLevel)) ∧
    List.Sorted InventoryItem.stockAsc (getLowStockItems s pid) := by
  constructor
  · intro i
    simp [getLowStockItems, List.mem_filter, and_assoc]
  · exact List.sorted_insertionSort InventoryItem.stockAsc _

/-- Witness for C4: the 5-of-10 item is flagged, the 10-of-10 boundary
item is not. -/
theorem low_stock_spec_witness :
    lowItem ∈ getLowStockItems baseState "ph1" ∧
    boundaryItem ∉ getLowStockItems baseState "ph1" :=
  ⟨((low_stock_spec baseState "ph1").1 lowItem).mpr (by decide),
   fun h => by
    have := ((low_stock_spec baseState "ph1").1 boundaryItem).mp h
    revert this
    decide⟩

/-! ## Claim C5: the near-expiry threshold query -/

/-- C5: the expiring-items query returns an item of the owner iff its
`expiryDate` is strictly before `today + days` — an item expiring exactly
on `today + days` is not returned — ordered ascending by `expiryDate`. -/
theorem expiring_items_spec (s : Storage) (pid : String) (days today : Nat) :
    (∀ i, i ∈ getExpiringItems s pid days today ↔
      (i ∈ s.inventory ∧ i.pharmacyId = pid ∧
        ∃ d, i.expiryDate = some d ∧ d < today + days)) ∧
    List.Sorted InventoryItem.expiryAsc (getExpiringItems s pid days today) := by
  constructor
  · intro i
    have he : expiryBefore i.expiryDate (today + days) ↔
        ∃ d, i.expiryDate = some d ∧ d < today + days := by
      cases h : i.expiryDate with
      | none => simp [expiryBefore]
      | some d => simp [expiryBefore]
    simp [getExpiringItems, List.mem_filter, he, and_assoc]
  · exact List.sorted_insertionSort InventoryItem.expiryAsc _

/-- Witness for C5: with day 50 as today and a 60-day horizon (cutoff day
110), the item expiring on day 100 is returned and the item expiring on
day 400 is not; with a 50-day horizon (cutoff exactly day 100) the first
item is no longer returned. -/
theorem expiring_items_spec_witness :
    lowItem ∈ getExpiringItems baseState "ph1" 60 50 ∧
    boundaryItem ∉ getExpiringItems baseState "ph1" 60 50 ∧
    lowItem ∉ getExpiringItems baseState "ph1" 50 50 :=
  ⟨((expiring_items_spec baseState "ph1" 60 50).1 lowItem).mpr
      ⟨by decide, rfl, 100, rfl, by decide⟩,
   fun h => by
    have := (((expiring_items_spec baseState "ph1" 60 50).1 boundaryItem).mp h).2.2
    revert this
    decide,
   fun h => by
    have := (((expiring_items_spec baseState "ph1" 50 50).1 lowItem).mp h).2.2
    revert this
    decide⟩

/-! ## Helper lemmas for the conversation store -/

/-- An update by id never changes a row's `userId`. -/
theorem setConversationFields_userId (id : String) (msgs : List ChatMessage)
    (ctx : Option String) (now : Nat) (c : AIConversation) :
    (setConversationFields id msgs ctx now c).userId = c.userId := by
  unfold setConversationFields
  split <;> rfl

/-- The user's conversation listing is empty exactly when the user has no
conversation row at all. -/
theorem getUserAIConversations_eq_nil (s : Storage) (u : String) :
    getUserAIConversations s u = [] ↔
      s.aiConversations.filter (fun c => c.userId = u) = [] := by
  unfold getUserAIConversations
  constructor
  · intro h
    rcases List.take_eq_nil_iff.mp h with h10 | hsort
    · exact absurd h10 (by decide)
    · have hp := List.perm_insertionSort AIConversation.recentFirst
        (s.aiConversations.filter (fun c => c.userId = u))
      rw [hsort] at hp
      exact hp.symm.eq_nil
  · intro h
    rw [h]
    rfl

/-- Inserting the first conversation of a user makes the user's listing
exactly that one row. -/
theorem getUserAIConversations_after_first (s : Storage) (u : String)
    (nc : AIConversation)
    (hnil : s.aiConversations.filter (fun c => c.userId = u) = [])
    (hu : nc.userId = u) :
    getUserAIConversations (createAIConversation s nc) u = [nc] := by
  unfold getUserAIConversations createAIConversation
  simp [List.filter_append, hnil, hu, List.insertionSort, List.orderedInsert]

/-- A row of the user's listing is a row of the table, owned by the user. -/
theorem mem_of_mem_getUserAIConversations {s : Storage} {u : String}
    {c : AIConversation} (h : c ∈ getUserAIConversations s u) :
    c ∈ s.aiConversations ∧ c.userId = u := by
  unfold getUserAIConversations at h
  have h1 := List.take_subset 10 _ h
  rw [List.mem_insertionSort] at h1
  have h2 := List.mem_filter.mp h1
  exact ⟨h2.1, by simpa using h2.2⟩

/-- Filtering a user's rows commutes with an update by id. -/
theorem filter_user_updateAIConversation (s : Storage) (u id : String)
    (msgs : List ChatMessage) (ctx : Option String) (now : Nat) :
    (updateAIConversation s id msgs ctx now).aiConversations.filter
        (fun c => c.userId = u) =
      (s.aiConversations.filter (fun c => c.userId = u)).map
        (setConversationFields id msgs ctx now) := by
  simp only [updateAIConversation]
  rw [List.filter_map]
  congr 1
  apply List.filter_congr
  intro a _
  simp [Function.comp, setConversationFields_userId]

/-- Appending a user entry then an assistant entry puts the assistant
entry last and the user entry just before it. -/
theorem turn_last_entries (l : List ChatMessage) (u a : ChatMessage) :
    (l ++ [u, a]).getLast? = some a ∧
    (l ++ [u, a]).dropLast.getLast? = some u := by
  have h : l ++ [u, a] = (l ++ [u]) ++ [a] := by simp
  rw [h, List.getLast?_concat, List.dropLast_concat, List.getLast?_concat]
  exact ⟨rfl, rfl⟩

/-! ## Claim C6: appending a chat turn -/

/-- C6: a chat turn by a user with no prior conversation creates exactly
one conversation whose transcript is exactly a `user` entry followed by
an `assistant` entry; a turn on an existing conversation extends the
most-recently-updated conversation's transcript by exactly those two
entries, preserving all prior entries in order, and overwrites its
`context` with the caller-supplied context. -/
theorem chat_turn_spec (s : Storage) (userId userRole message : String)
    (context : Option String) (gen : Option String) (newId : String) (now : Nat) :
    (s.aiConversations.filter (fun c => c.userId = userId) = [] →
      (aiChatRoute s userId userRole message context gen newId now).1.aiConversations.filter
          (fun c => c.userId = userId) =
        [{ id := newId, userId := userId, userRole := userRole,
           messages := [⟨"user", message, now⟩,
                        ⟨"assistant", getChatResponse gen userRole, now⟩],
           context := context, createdAt := now, updatedAt := now }]) ∧
    (∀ c0 rest, getUserAIConversations s userId = c0 :: rest →
      ∃ c', c' ∈ (aiChatRoute s userId userRole message context gen newId now).1.aiConversations ∧
        c'.id = c0.id ∧
        c'.messages = c0.messages ++
          [⟨"user", message, now⟩,
           ⟨"assistant", getChatResponse gen userRole, now⟩] ∧
        c'.context = context) := by
  constructor
  · intro hnil
    have hconv : getUserAIConversations s userId = [] :=
      (getUserAIConversations_eq_nil s userId).mpr hnil
    simp only [aiChatRoute, hconv, List.head?_nil]
    rw [getUserAIConversations_after_first s userId _ hnil rfl]
    simp only [List.head?_cons]
    rw [filter_user_updateAIConversation]
    simp only [createAIConversation, List.filter_append, hnil]
    simp [setConversationFields]
  · intro c0 rest hconv
    have hmem : c0 ∈ s.aiConversations :=
      (mem_of_mem_getUserAIConversations
        (by rw [hconv]; exact List.mem_cons_self c0 rest)).1
    simp only [aiChatRoute, hconv, List.head?_cons, updateAIConversation]
    refine ⟨setConversationFields c0.id
        (c0.messages ++ [⟨"user", message, now⟩,
          ⟨"assistant", getChatResponse gen userRole, now⟩]) context now c0,
      List.mem_map_of_mem _ hmem, ?_, ?_, ?_⟩ <;>
    simp [setConversationFields]

/-- Witness for C6: a first turn by user `u2` creates the single expected
conversation; a turn by user `u1` extends the existing `conv1` by the two
new entries and overwrites its context. -/
theorem chat_turn_spec_witness :
    ((aiChatRoute baseState "u2" "patient" "hello" (some "ctx") (some "resp")
        "convN" 20).1.aiConversations.filter (fun c => c.userId = "u2") =
      [{ id := "convN", userId := "u2", userRole := "patient",
         messages := [⟨"user", "hello", 20⟩, ⟨"assistant", "resp", 20⟩],
         context := some "ctx", createdAt := 20, updatedAt := 20 }]) ∧
    (∃ c', c' ∈ (aiChatRoute baseState "u1" "patient" "hey" (some "c2")
          (some "sure") "convM" 21).1.aiConversations ∧
      c'.id = conv1.id ∧
      c'.messages = conv1.messages ++
        [⟨"user", "hey", 21⟩, ⟨"assistant", "sure", 21⟩] ∧
      c'.context = some "c2") :=
  ⟨(chat_turn_spec baseState "u2" "patient" "hello" (some "ctx") (some "resp")
      "convN" 20).1 (by decide),
   (chat_turn_spec baseState "u1" "patient" "hey" (some "c2") (some "sure")
      "convM" 21).2 conv1 [] (by decide)⟩

/-! ## Claim C7: upstream failure falls back and still persists -/

/-- C7: when the text-generation collaborator fails (modelled by `none`:
unreachable fetch, non-OK response, or missing/empty `choices`), the chat
turn reports success carrying the role-specific fallback string, and the
persisted transcript ends with the user entry followed by an assistant
entry equal to that fallback. -/
theorem chat_fallback_spec (s : Storage) (userId userRole message : String)
    (context : Option String) (newId : String) (now : Nat) :
    (aiChatRoute s userId userRole message context none newId now).2 =
      .ok (fallbackResponse userRole) ∧
    ∃ c', c' ∈ (aiChatRoute s userId userRole message context none newId now).1.aiConversations ∧
      c'.messages.getLast? = some ⟨"assistant", fallbackResponse userRole, now⟩ ∧
      c'.messages.dropLast.getLast? = some ⟨"user", message, now⟩ := by
  cases hconv : getUserAIConversations s userId with
  | cons c0 rest =>
    have hmem : c0 ∈ s.aiConversations :=
      (mem_of_mem_getUserAIConversations
        (by rw [hconv]; exact List.mem_cons_self c0 rest)).1
    simp only [aiChatRoute, hconv, List.head?_cons, updateAIConversation,
      getChatResponse]
    refine ⟨by trivial, setConversationFields c0.id
        (c0.messages ++ [⟨"user", message, now⟩,
          ⟨"assistant", fallbackResponse userRole, now⟩]) context now c0,
      List.mem_map_of_mem _ hmem, ?_, ?_⟩ <;>
    · simp only [setConversationFields, if_pos]
      first
      | exact (turn_last_entries c0.messages _ _).1
      | exact (turn_last_entries c0.messages _ _).2
  | nil =>
    have hnil : s.aiConversations.filter (fun c => c.userId = userId) = [] :=
      (getUserAIConversations_eq_nil s userId).mp hconv
    simp only [aiChatRoute, hconv, List.head?_nil, getChatResponse]
    rw [getUserAIConversations_after_first s userId _ hnil rfl]
    simp only [List.head?_cons, updateAIConversation, createAIConversation]
    refine ⟨by trivial, setConversationFields newId
        ([] ++ [⟨"user", message, now⟩,
          ⟨"assistant", fallbackResponse userRole, now⟩]) context now
        { id := newId, userId := userId, userRole := userRole,
          messages := [], context := none, createdAt := now, updatedAt := now },
      ?_, ?_, ?_⟩
    · exact List.mem_map_of_mem _ (List.mem_append_right _ (List.mem_singleton_self _))
    · simp only [setConversationFields, if_pos]
      exact (turn_last_entries [] _ _).1
    · simp only [setConversationFields, if_pos]
      exact (turn_last_entries [] _ _).2

/-! ## Claim C1: lifecycle transition legality (refuted, then amended) -/

/-- Counterexample to C1 as stated: through the public API a pending
prescription's status is changed directly to `completed` in one
status-update call, which is not the immediate successor of `pending` —
the lifecycle order is neither enforced forward-only nor step-by-step. -/
theorem status_skip_counterexample :
    (getPrescription baseState "rx1").map Prescription.status = some "pending" ∧
    (getPrescription
        (updatePrescriptionStatusRoute baseState "u-ph1" "pharmacy" "rx1"
          "completed" 7).1 "rx1").map Prescription.status = some "completed" ∧
    statusSuccessor "pending" ≠ some "completed" := by
  decide

/-- C1 amended: creation fixes the status to `pending`, but the
status-update operation performs no check against the current status — for
a pharmacy-role caller it overwrites the stored status with exactly the
caller-supplied value, so state-skipping and backward transitions are
accepted. -/
theorem status_update_unvalidated (s : Storage) (userId id newStatus : String)
    (now : Nat) (p : Prescription) (hp : p ∈ s.prescriptions) (hid : p.id = id) :
    (∃ r, (updatePrescriptionStatusRoute s userId "pharmacy" id newStatus now).2 =
      .ok r) ∧
    { p with status := newStatus, updatedAt := now } ∈
      (updatePrescriptionStatusRoute s userId "pharmacy" id newStatus now).1.prescriptions := by
  simp only [updatePrescriptionStatusRoute, ne_eq, not_true_eq_false, if_false,
    updatePrescription]
  refine ⟨⟨_, rfl⟩, ?_⟩
  have : setPrescriptionStatus id newStatus now p =
      { p with status := newStatus, updatedAt := now } := by
    simp [setPrescriptionStatus, hid]
  exact this ▸ List.mem_map_of_mem _ hp

/-- Witness for the amended C1: the concrete pending prescription is
overwritten straight to `completed`. -/
theorem status_update_unvalidated_witness :
    (∃ r, (updatePrescriptionStatusRoute baseState "u-ph1" "pharmacy" "rx1"
      "completed" 7).2 = .ok r) ∧
    { rx1 with status := "completed", updatedAt := 7 } ∈
      (updatePrescriptionStatusRoute baseState "u-ph1" "pharmacy" "rx1"
        "completed" 7).1.prescriptions :=
  status_update_unvalidated baseState "u-ph1" "rx1" "completed" 7 rx1
    (by decide) rfl

/-! ## Claim C8: input validation (refuted, then amended) -/

/-- Counterexample to C8 as stated: a create-prescription request with an
empty medications list from a doctor with a profile succeeds and persists
the prescription, and an inventory request with negative `currentStock`
and `minStockLevel` from a pharmacy with a profile succeeds and persists
the item — neither fails with a validation error. -/
theorem no_validation_counterexample :
    (∃ p, (createPrescriptionRoute baseState "u-doc" "doctor"
        { patientId := "pat1", medications := [] } "rx9" 11).2 = .ok p ∧
      p ∈ (createPrescriptionRoute baseState "u-doc" "doctor"
        { patientId := "pat1", medications := [] } "rx9" 11).1.prescriptions ∧
      p.medications = []) ∧
    (∃ it, (createInventoryItemRoute baseState "u-ph1" "pharmacy"
        { medicineName := "Ibuprofen", currentStock := -5, minStockLevel := -1 }
        "inv9" 11).2 = .ok it ∧
      it ∈ (createInventoryItemRoute baseState "u-ph1" "pharmacy"
        { medicineName := "Ibuprofen", currentStock := -5, minStockLevel := -1 }
        "inv9" 11).1.inventory ∧
      it.currentStock = -5) := by
  refine ⟨⟨_, rfl, ?_, rfl⟩, ⟨_, rfl, ?_, rfl⟩⟩ <;> decide

/-- C8 amended: the create-prescription and inventory-create operations
perform no content validation — for a doctor (resp. pharmacy) caller
with a profile, any body is persisted as given, including an empty
medications list and negative stock values; the only failure gates are
the role check and the profile lookup. -/
theorem no_content_validation (s : Storage) (uidD uidP : String)
    (bodyP : PrescriptionBody) (bodyI : InventoryBody) (idP idI : String)
    (now : Nat) (d : Doctor) (hd : getDoctorByUserId s uidD = some d)
    (ph : Pharmacy) (hph : getPharmacyByUserId s uidP = some ph) :
    (∃ p, createPrescriptionRoute s uidD "doctor" bodyP idP now =
        ({ s with prescriptions := s.prescriptions ++ [p] }, .ok p) ∧
      p.medications = bodyP.medications) ∧
    (∃ it, createInventoryItemRoute s uidP "pharmacy" bodyI idI now =
        ({ s with inventory := s.inventory ++ [it] }, .ok it) ∧
      it.currentStock = bodyI.currentStock ∧
      it.minStockLevel = bodyI.minStockLevel) := by
  constructor
  · simp only [createPrescriptionRoute, ne_eq, not_true_eq_false, if_false, hd,
      createPrescription]
    exact ⟨_, rfl, rfl⟩
  · simp only [createInventoryItemRoute, ne_eq, not_true_eq_false, if_false, hph,
      createInventoryItem]
    exact ⟨_, rfl, rfl, rfl⟩

/-- Witness for the amended C8: the empty-medication prescription and the
negative-stock item are both persisted verbatim. -/
theorem no_content_validation_witness :
    (∃ p, createPrescriptionRoute baseState "u-doc" "doctor"
        { patientId := "pat1", medications := [] } "rx9" 11 =
        ({ baseState with
            prescriptions := baseState.prescriptions ++ [p] }, .ok p) ∧
      p.medications = ([] : List Medication)) ∧
    (∃ it, createInventoryItemRoute baseState "u-ph1" "pharmacy"
        { medicineName := "Ibuprofen", currentStock := -5, minStockLevel := -1 }
        "inv9" 11 =
        ({ baseState with inventory := baseState.inventory ++ [it] }, .ok it) ∧
      it.currentStock = (-5 : Int) ∧ it.minStockLevel = (-1 : Int)) :=
  no_content_validation baseState "u-doc" "u-ph1"
    { patientId := "pat1", medications := [] }
    { medicineName := "Ibuprofen", currentStock := -5, minStockLevel := -1 }
    "rx9" "inv9" 11 doc1 (by decide) ph1 (by decide)

/-! ## Claim C9: ownership on status update (refuted, then amended) -/

/-- Counterexample to C9 as stated: the pharmacy-role caller `u-ph2`
(profile `ph2`) updates the status of prescription `rx1`, which is
assigned to the different pharmacy `ph1`; the call succeeds and mutates
the prescription instead of failing with a 4xx. -/
theorem cross_pharmacy_update_counterexample :
    (getPharmacyByUserId baseState "u-ph2").map Pharmacy.id = some "ph2" ∧
    (getPrescription baseState "rx1").map Prescription.pharmacyId =
      some (some "ph1") ∧
    (updatePrescriptionStatusRoute baseState "u-ph2" "pharmacy" "rx1"
        "dispensed" 9).2 =
      .ok (some { rx1 with status := "dispensed", updatedAt := 9 }) ∧
    (getPrescription
        (updatePrescriptionStatusRoute baseState "u-ph2" "pharmacy" "rx1"
          "dispensed" 9).1 "rx1").map Prescription.status = some "dispensed" := by
  decide

/-- C9 amended: the status-update operation enforces only the role gate —
a non-pharmacy caller gets 403 with no state change, while any
pharmacy-role caller may update any prescription's status, including one
assigned to a different pharmacy or to none; no ownership check is
performed. -/
theorem status_update_role_gate_only (s : Storage) (userId userRole id
    newStatus : String) (now : Nat) :
    (userRole ≠ "pharmacy" →
      updatePrescriptionStatusRoute s userId userRole id newStatus now =
        (s, .error 403 "Only pharmacies can update prescription status")) ∧
    (userRole = "pharmacy" → ∀ p ∈ s.prescriptions, p.id = id →
      { p with status := newStatus, updatedAt := now } ∈
        (updatePrescriptionStatusRoute s userId userRole id newStatus now).1.prescriptions) := by
  constructor
  · intro h
    simp [updatePrescriptionStatusRoute, h]
  · intro h p hp hid
    subst h
    simp only [updatePrescriptionStatusRoute, ne_eq, not_true_eq_false, if_false,
      updatePrescription]
    have : setPrescriptionStatus id newStatus now p =
        { p with status := newStatus, updatedAt := now } := by
      simp [setPrescriptionStatus, hid]
    exact this ▸ List.mem_map_of_mem _ hp

/-- Witness for the amended C9: a patient-role caller is rejected with
403, while pharmacy `ph2` successfully rewrites the prescription owned by
`ph1`. -/
theorem status_update_role_gate_only_witness :
    updatePrescriptionStatusRoute baseState "u-pat" "patient" "rx1"
        "approved" 9 =
      (baseState, .error 403 "Only pharmacies can update prescription status") ∧
    { rx1 with status := "dispensed", updatedAt := 9 } ∈
      (updatePrescriptionStatusRoute baseState "u-ph2" "pharmacy" "rx1"
        "dispensed" 9).1.prescriptions :=
  ⟨(status_update_role_gate_only baseState "u-pat" "patient" "rx1" "approved"
      9).1 (by decide),
   (status_update_role_gate_only baseState "u-ph2" "pharmacy" "rx1" "dispensed"
      9).2 rfl rx1 (by decide) rfl⟩

end MediConnect
